import Mathlib

/-!
Verification of the Shipment Management System's inventory-allocation and
stock-ledger core.

This development shallowly embeds the persistence layer and the operations of
`ShipmentManager.py`, `ui_widgets_1.py` and `ui_widgets_2.py`:

* the SQLite tables created in `Database.init_database` become lists of row
  structures collected in a `DB` state;
* `Database.execute_update` opens a fresh connection and commits after every
  single statement (lines 189-197), so a multi-statement operation such as
  `AddShipmentDialog.save_shipment` is a sequence of independently committed
  inserts; this is modelled by an explicit insert plan with a fault schedule;
* the aggregation queries (`load_shipments`, `load_products`, `load_stock`,
  `load_farmers`) are embedded with SQL `LEFT JOIN` / `GROUP BY` semantics,
  including the row fan-out a chain of left joins produces;
* monetary and quantity values are modelled by `ℚ`; timestamps by `Nat`
  (SQLite orders its ISO-8601 `TIMESTAMP` strings chronologically).
-/

namespace ShipmentMgr

/-- Row of the `products` table (`init_database`, lines 52-58). -/
structure ProductRow where
  id : Nat
  name : String
  createdAt : Nat
  deriving Repr, DecidableEq

/-- Row of the `farmers` table (`init_database`, lines 60-66). -/
structure FarmerRow where
  id : Nat
  name : String
  createdAt : Nat
  deriving Repr, DecidableEq

/-- Row of the `shipments` table (`init_database`, lines 68-74). -/
structure ShipmentRow where
  id : Nat
  createdAt : Nat
  notes : String
  deriving Repr, DecidableEq

/-- Row of the `shipment_products` table (`init_database`, lines 76-85). -/
structure ShipmentProductRow where
  shipmentId : Nat
  productId : Nat
  unitPrice : ℚ
  quantity : ℚ
  subtotal : ℚ
  deriving Repr, DecidableEq

/-- Row of the `farmer_purchases` table (`init_database`, lines 87-98).
A `none` shipment id is a direct warehouse sale (`ManageWidget.direct_sell`). -/
structure FarmerPurchaseRow where
  shipmentId : Option Nat
  farmerId : Nat
  productId : Nat
  quantity : ℚ
  unitPrice : ℚ
  totalPaid : ℚ
  deriving Repr, DecidableEq

/-- Row of the `transfers` table (`init_database`, lines 100-110). -/
structure TransferRow where
  fromFarmerId : Nat
  toFarmerId : Nat
  productId : Nat
  quantity : ℚ
  note : String
  deriving Repr, DecidableEq

/-- Row of the `returns` table (`init_database`, lines 112-122). -/
structure ReturnRow where
  farmerId : Nat
  productId : Nat
  quantity : ℚ
  refundAmount : ℚ
  note : String
  deriving Repr, DecidableEq

/-- The persistent state: the event and reference tables of the SQLite store. -/
structure DB where
  products : List ProductRow
  farmers : List FarmerRow
  shipments : List ShipmentRow
  shipment_products : List ShipmentProductRow
  farmer_purchases : List FarmerPurchaseRow
  transfers : List TransferRow
  returns : List ReturnRow
  deriving Repr, DecidableEq

/-- The empty database (no reference data, no events). -/
def DB.empty : DB :=
  { products := [], farmers := [], shipments := [], shipment_products := []
    farmer_purchases := [], transfers := [], returns := [] }

/-- Validation and failure messages shown by the dialogs
(`QMessageBox.warning` calls throughout the source). -/
inductive UIError where
  /-- "Please add at least one product" (`save_shipment`, line 1259). -/
  | emptyShipment
  /-- "Product NAME has R units not assigned to farmers"
  (`save_shipment`, line 1266). -/
  | incompleteAllocation (productName : String) (unassigned : ℚ)
  /-- "Failed to save shipment" (`save_shipment`, line 1297). -/
  | persistenceFailure
  /-- "Please select a product first" (`assign_to_farmer`, line 1186). -/
  | noProductSelected
  /-- Defensive case: `current_product_idx` out of range (unreachable through
  `select_product_for_farmers`, which bounds-checks the index). -/
  | invalidProductIndex
  /-- "Farmer already assigned to this product" (`assign_to_farmer`, line 1199). -/
  | duplicateFarmer
  /-- "Only R units remaining for this product" (`assign_to_farmer`, line 1206). -/
  | overAllocation (remaining : ℚ)
  /-- "Product already added to shipment" (`add_product_to_shipment`, line 1137). -/
  | duplicateProductInDraft
  /-- "Cannot transfer to the same farmer" (`transfer_products`, line 655). -/
  | sameFarmerTransfer
  /-- "Please select farmer and product" (`direct_sell`, line 970). -/
  | missingSelection
  /-- "You do not have permission ..." (`ui_widgets_1.add_product`, line 355). -/
  | permissionDenied
  /-- "Product name cannot be empty." (`ui_widgets_1.add_product`, line 366). -/
  | emptyName
  /-- "Product name too long ..." (`ui_widgets_1.add_product`, line 373). -/
  | nameTooLong
  /-- "This product already exists." (`ui_widgets_1.add_product`, line 379). -/
  | duplicateName
  /-- Exception raised by an INSERT (for example a UNIQUE violation) and
  caught by the surrounding `try/except`, which only shows a warning. -/
  | integrityViolation
  /-- The user dismissed a dialog or confirmation, so nothing was done. -/
  | cancelledByUser
  deriving Repr, DecidableEq

/-- Outcome of a dialog action: either it went through or a warning was shown. -/
inductive UIOutcome where
  | accepted
  | rejected (e : UIError)
  deriving Repr, DecidableEq

/-! ## Shipment allocation builder (AddShipmentDialog draft state) -/

/-- One entry of a draft product's `farmers` list
(`assign_to_farmer`, lines 1211-1217). -/
structure FarmerAssignment where
  farmerId : Nat
  farmerName : String
  quantity : ℚ
  unitPrice : ℚ
  totalPaid : ℚ
  deriving Repr, DecidableEq

/-- One entry of `AddShipmentDialog.self.products`
(`add_product_to_shipment`, lines 1141-1148). -/
structure DraftProduct where
  productId : Nat
  name : String
  unitPrice : ℚ
  quantity : ℚ
  subtotal : ℚ
  farmers : List FarmerAssignment
  deriving Repr, DecidableEq

/-- The draft being composed by `AddShipmentDialog`: the notes text plus the
line items. -/
structure Draft where
  notes : String
  products : List DraftProduct
  deriving Repr, DecidableEq

/-- Sum of the quantities already assigned to farmers for one draft product:
`sum(f['quantity'] for f in product['farmers'])` (lines 1203 and 1264). -/
def totalAssigned (p : DraftProduct) : ℚ :=
  (p.farmers.map (·.quantity)).sum

/-- `AddShipmentDialog.assign_to_farmer` (lines 1183-1226).  Checks, in source
order: a product is selected; the farmer does not already appear against this
product; the request does not exceed the product's remaining quantity.  On
success the assignment (with `total_paid = quantity * selling_price`) is
appended to the selected product's farmer list; on any warning the draft is
returned unchanged. -/
def assign_to_farmer (products : List DraftProduct) (currentProductIdx : Option Nat)
    (farmerId : Nat) (farmerName : String) (quantity sellingPrice : ℚ) :
    UIOutcome × List DraftProduct :=
  match currentProductIdx with
  | none => (.rejected .noProductSelected, products)
  | some idx =>
    match products[idx]? with
    | none => (.rejected .invalidProductIndex, products)
    | some product =>
      if product.farmers.any (fun f => f.farmerId == farmerId) then
        (.rejected .duplicateFarmer, products)
      else if totalAssigned product + quantity > product.quantity then
        (.rejected (.overAllocation (product.quantity - totalAssigned product)), products)
      else
        (.accepted, products.set idx
          { product with farmers := product.farmers ++
              [⟨farmerId, farmerName, quantity, sellingPrice, quantity * sellingPrice⟩] })

/-- `AddShipmentDialog.add_product_to_shipment` (lines 1126-1155): rejects a
product id already present in the draft, otherwise appends a line item with
`subtotal = unit_price * quantity` and an empty farmer list. -/
def add_product_to_shipment (products : List DraftProduct)
    (productId : Nat) (productName : String) (unitPrice : ℚ) (quantity : ℚ) :
    UIOutcome × List DraftProduct :=
  if products.any (fun p => p.productId == productId) then
    (.rejected .duplicateProductInDraft, products)
  else
    (.accepted, products ++
      [⟨productId, productName, unitPrice, quantity, unitPrice * quantity, []⟩])

/-! ## Persistence operations

`Database.execute_update` (lines 189-197) opens a fresh connection, executes
one statement, commits and closes.  Every statement is therefore its own
transaction: once `execute_update` returns, its row is durable regardless of
what happens to later statements of the same dialog action. -/

/-- `AUTOINCREMENT` id for the next inserted row: one past the largest id. -/
def nextId (ids : List Nat) : Nat :=
  ids.foldr max 0 + 1

/-- Insert of the shipment header row
(`save_shipment`, lines 1272-1275). -/
def insertShipmentRow (sid now : Nat) (notes : String) : DB → DB :=
  fun db => { db with shipments := db.shipments ++ [⟨sid, now, notes⟩] }

/-- Insert of one `shipment_products` row (`save_shipment`, lines 1279-1283). -/
def insertLineItemRow (sid : Nat) (p : DraftProduct) : DB → DB :=
  fun db => { db with shipment_products := db.shipment_products ++
    [⟨sid, p.productId, p.unitPrice, p.quantity, p.subtotal⟩] }

/-- Insert of one shipment-tied `farmer_purchases` row
(`save_shipment`, lines 1287-1291). -/
def insertPurchaseRow (sid : Nat) (productId : Nat) (f : FarmerAssignment) : DB → DB :=
  fun db => { db with farmer_purchases := db.farmer_purchases ++
    [⟨some sid, f.farmerId, productId, f.quantity, f.unitPrice, f.totalPaid⟩] }

/-- The `execute_update` calls made for one draft product: its line item row
followed by its farmer-purchase rows (`save_shipment`, lines 1278-1291). -/
def insertPlanFor (sid : Nat) (p : DraftProduct) : List (DB → DB) :=
  insertLineItemRow sid p :: p.farmers.map (insertPurchaseRow sid p.productId)

/-- Runs the insert statements in order, numbering them from `k`.  A fault
schedule `failAt = some j` makes the `j`-th statement raise: that statement
does not commit, no later statement runs, but every statement already executed
stays committed (each ran on its own auto-committing connection).  Returns the
resulting store and whether all statements succeeded. -/
def runInsertsFrom (failAt : Option Nat) : DB → List (DB → DB) → Nat → DB × Bool
  | db, [], _ => (db, true)
  | db, ins :: rest, k =>
    if failAt = some k then (db, false)
    else runInsertsFrom failAt (ins db) rest (k + 1)

/-- `AddShipmentDialog.save_shipment` (lines 1256-1297).  Validation first:
the draft must be non-empty and every line item's assigned quantities must sum
exactly to its quantity, otherwise a warning names the first offending product
and its unassigned remainder and nothing is written.  Then the shipment row,
each line item and each allocation are inserted by separate `execute_update`
calls; `failAt` is the fault schedule of `runInsertsFrom`.  An insert failure
is caught by the `try/except` and only reported — rows already inserted are
not removed. -/
def save_shipment (draft : Draft) (db : DB) (now : Nat) (failAt : Option Nat) :
    UIOutcome × DB :=
  if draft.products.isEmpty then (.rejected .emptyShipment, db)
  else
    match draft.products.find? (fun p => decide (totalAssigned p ≠ p.quantity)) with
    | some p =>
        (.rejected (.incompleteAllocation p.name (p.quantity - totalAssigned p)), db)
    | none =>
        let sid := nextId (db.shipments.map (·.id))
        let plan := insertShipmentRow sid now draft.notes ::
          (draft.products.map (insertPlanFor sid)).flatten
        match runInsertsFrom failAt db plan 0 with
        | (db', true) => (.accepted, db')
        | (db', false) => (.rejected .persistenceFailure, db')

/-- `TransferDialog.transfer_products` (lines 646-669): rejects a transfer
from a farmer to themselves, otherwise inserts exactly one `transfers` row. -/
def transfer_products (db : DB) (fromFarmerId toFarmerId productId : Nat)
    (quantity : ℚ) (note : String) : UIOutcome × DB :=
  if fromFarmerId == toFarmerId then (.rejected .sameFarmerTransfer, db)
  else
    (.accepted, { db with transfers := db.transfers ++
      [⟨fromFarmerId, toFarmerId, productId, quantity, note⟩] })

/-- `ReturnDialog.record_return` (lines 731-750): unconditionally inserts one
`returns` row; no stock-availability check of any kind. -/
def record_return (db : DB) (farmerId productId : Nat)
    (quantity refundAmount : ℚ) (note : String) : UIOutcome × DB :=
  (.accepted, { db with returns := db.returns ++
    [⟨farmerId, productId, quantity, refundAmount, note⟩] })

/-- `ManageWidget.direct_sell` (lines 961-988): requires a farmer and a
product to be selected, then inserts one `farmer_purchases` row with
`shipment_id = NULL` and `total_paid = quantity * unit_price`.  No
stock-availability check is performed. -/
def direct_sell (db : DB) (farmerId productId : Option Nat)
    (quantity unitPrice : ℚ) : UIOutcome × DB :=
  match farmerId, productId with
  | some fid, some pid =>
      (.accepted, { db with farmer_purchases := db.farmer_purchases ++
        [⟨none, fid, pid, quantity, unitPrice, quantity * unitPrice⟩] })
  | _, _ => (.rejected .missingSelection, db)

/-! ## Creating products and farmers

The `products` and `farmers` tables declare `name TEXT UNIQUE NOT NULL`;
SQLite's default BINARY collation makes that constraint case-SENSITIVE, so an
INSERT only raises for an exactly equal existing name. -/

/-- Plain `INSERT INTO products (name) VALUES (?)` under the case-sensitive
UNIQUE constraint: raises (`Except.error`) on an exact name match, otherwise
appends the row. -/
def insertProductRow (db : DB) (name : String) (now : Nat) : Except Unit DB :=
  if db.products.any (fun p => p.name == name) then .error ()
  else .ok { db with products := db.products ++
    [⟨nextId (db.products.map (·.id)), name, now⟩] }

/-- Plain `INSERT INTO farmers (name) VALUES (?)` under the case-sensitive
UNIQUE constraint. -/
def insertFarmerRow (db : DB) (name : String) (now : Nat) : Except Unit DB :=
  if db.farmers.any (fun f => f.name == name) then .error ()
  else .ok { db with farmers := db.farmers ++
    [⟨nextId (db.farmers.map (·.id)), name, now⟩] }

/-- `ProductsWidget.add_product` of `ShipmentManager.py` (lines 452-461):
`if ok and name:` then a bare INSERT inside `try/except`.  No case-insensitive
duplicate check — only the UNIQUE constraint can reject, and it compares
case-sensitively. -/
def add_product_sm (db : DB) (name : String) (now : Nat) : UIOutcome × DB :=
  if name == "" then (.rejected .cancelledByUser, db)
  else
    match insertProductRow db name now with
    | .ok db' => (.accepted, db')
    | .error _ => (.rejected .integrityViolation, db)

/-- `FarmersWidget.add_farmer` (`ShipmentManager.py` lines 550-559 and
`ui_widgets_2.py` lines 74-83, identical): `if ok and name:` then a bare
INSERT inside `try/except`; no case-insensitive duplicate check. -/
def add_farmer (db : DB) (name : String) (now : Nat) : UIOutcome × DB :=
  if name == "" then (.rejected .cancelledByUser, db)
  else
    match insertFarmerRow db name now with
    | .ok db' => (.accepted, db')
    | .error _ => (.rejected .integrityViolation, db)

/-- SQLite's `LOWER()` (ASCII-only lowercasing), character by character. -/
def lowerStr (s : String) : String :=
  ⟨s.data.map Char.toLower⟩

/-- Python's `str.strip()`: the string without leading and trailing
whitespace. -/
def stripStr (s : String) : String :=
  ⟨((s.data.dropWhile Char.isWhitespace).reverse.dropWhile
      Char.isWhitespace).reverse⟩

/-- `ProductsWidget._product_exists` of `ui_widgets_1.py` (lines 338-349):
`SELECT id FROM products WHERE LOWER(name) = LOWER(?)` on the stripped name —
a case-insensitive existence check. -/
def product_exists (db : DB) (name : String) : Bool :=
  db.products.any (fun p => lowerStr p.name == lowerStr (stripStr name))

/-- `ProductsWidget.add_product` of `ui_widgets_1.py` (lines 351-400), the
hardened path: role gate, empty-name and length validation, the
case-insensitive `product_exists` duplicate check, a user confirmation, and
only then the INSERT (whose own failure is caught and reported). -/
def add_product_hardened (db : DB) (role : String) (name : String)
    (confirmed : Bool) (now : Nat) : UIOutcome × DB :=
  if ¬(role == "admin" || role == "manager") then (.rejected .permissionDenied, db)
  else if stripStr name == "" then (.rejected .emptyName, db)
  else if (stripStr name).length > 200 then (.rejected .nameTooLong, db)
  else if product_exists db name then (.rejected .duplicateName, db)
  else if ¬confirmed then (.rejected .cancelledByUser, db)
  else
    match insertProductRow db (stripStr name) now with
    | .ok db' => (.accepted, db')
    | .error _ => (.rejected .integrityViolation, db)

/-! ## Aggregation queries

SQL semantics of the listing queries.  A `LEFT JOIN` keeps every left row,
pairing it with each matching right row, or with `NULL` when none matches;
`padOpt` realises the right-hand side of one such join for a fixed left row.
Chaining left joins multiplies the matching rows of the independent tables
(row fan-out), and the `SUM`s range over that product; the embedding keeps
this behaviour.  `SUM` ignores `NULL` operands and `COALESCE(SUM(..), 0)`
turns the all-`NULL` sum into `0`, which together amount to summing
`coalesceQ` over the joined rows. -/

/-- Matching rows contributed by one left-joined table for a fixed left row:
each match, or a single `NULL` row when there is no match. -/
def padOpt {α : Type} (l : List α) : List (Option α) :=
  if l.isEmpty then [none] else l.map some

/-- `COALESCE(x, 0)` applied to a field selected from a possibly-`NULL` row. -/
def coalesceQ {α : Type} (f : α → ℚ) : Option α → ℚ
  | none => 0
  | some a => f a

/-- The row set produced by left-joining three event tables (already filtered
to the current group) onto one reference row. -/
def joinRows {α β γ : Type} (as : List α) (bs : List β) (cs : List γ) :
    List (Option α × Option β × Option γ) :=
  (padOpt as).flatMap (fun a =>
    (padOpt bs).flatMap (fun b =>
      (padOpt cs).map (fun c => (a, b, c))))

/-- The row set produced by left-joining two event tables onto one reference
row. -/
def joinRows2 {α β : Type} (as : List α) (bs : List β) :
    List (Option α × Option β) :=
  (padOpt as).flatMap (fun a => (padOpt bs).map (fun b => (a, b)))

/-- Result row of `ShipmentsWidget.load_shipments`. -/
structure ShipmentSummaryRow where
  id : Nat
  createdAt : Nat
  notes : String
  product_count : Nat
  farmer_count : Nat
  total_paid : ℚ
  deriving Repr, DecidableEq

/-- One group of the `load_shipments` query (`ShipmentManager.py` lines
325-335; `ui_widgets_1.py` lines 133-143): `shipments LEFT JOIN
shipment_products LEFT JOIN farmer_purchases` on the shipment id, grouped by
shipment, with `COUNT(DISTINCT ..)` product and farmer counts and
`COALESCE(SUM(fp.total_paid), 0)`. -/
def load_shipments_row (db : DB) (s : ShipmentRow) : ShipmentSummaryRow :=
  let sp := db.shipment_products.filter (fun r => r.shipmentId == s.id)
  let fp := db.farmer_purchases.filter (fun r => r.shipmentId == some s.id)
  let rows := joinRows2 sp fp
  { id := s.id
    createdAt := s.createdAt
    notes := s.notes
    product_count := ((rows.filterMap (fun x => x.1.map (·.productId))).dedup).length
    farmer_count := ((rows.filterMap (fun x => x.2.map (·.farmerId))).dedup).length
    total_paid := (rows.map (fun x => coalesceQ (·.totalPaid) x.2)).sum }

/-- `ShipmentsWidget.load_shipments`: the summary rows ordered by
`created_at DESC`. -/
def load_shipments (db : DB) : List ShipmentSummaryRow :=
  (db.shipments.mergeSort (fun a b => decide (b.createdAt ≤ a.createdAt))).map
    (load_shipments_row db)

/-- Result row of `ProductsWidget.load_products`. -/
structure ProductStatsRow where
  id : Nat
  name : String
  createdAt : Nat
  total_bought : ℚ
  total_cost : ℚ
  current_stock : ℚ
  deriving Repr, DecidableEq

/-- One group of the `load_products` query (`ShipmentManager.py` lines
411-426; `ui_widgets_1.py` lines 269-284): `products LEFT JOIN
shipment_products LEFT JOIN farmer_purchases LEFT JOIN returns` on the
product id — the farmer-purchases join has NO shipment filter, so direct
sales are included — grouped by product, with
`current_stock = SUM(sp.quantity) - SUM(fp.quantity) - SUM(r.quantity)`
(each sum `COALESCE`d to 0). -/
def load_products_row (db : DB) (p : ProductRow) : ProductStatsRow :=
  let sp := db.shipment_products.filter (fun r => r.productId == p.id)
  let fp := db.farmer_purchases.filter (fun r => r.productId == p.id)
  let rr := db.returns.filter (fun r => r.productId == p.id)
  let rows := joinRows sp fp rr
  { id := p.id
    name := p.name
    createdAt := p.createdAt
    total_bought := (rows.map (fun x => coalesceQ (·.quantity) x.1)).sum
    total_cost := (rows.map (fun x => coalesceQ (·.subtotal) x.1)).sum
    current_stock :=
      (rows.map (fun x => coalesceQ (·.quantity) x.1)).sum
      - (rows.map (fun x => coalesceQ (·.quantity) x.2.1)).sum
      - (rows.map (fun x => coalesceQ (·.quantity) x.2.2)).sum }

/-- `ProductsWidget.load_products`: the product statistics rows ordered by
name ascending (`ORDER BY p.name`). -/
def load_products (db : DB) : List ProductStatsRow :=
  (db.products.mergeSort (fun a b => decide (a.name ≤ b.name))).map
    (load_products_row db)

/-- Result row of `ManageWidget.load_stock`. -/
structure StockRow where
  name : String
  total_bought : ℚ
  total_sold : ℚ
  current_stock : ℚ
  deriving Repr, DecidableEq

/-- One group of the `load_stock` query (`ManageWidget.load_stock`, lines
929-944).  Unlike `load_products`, the farmer-purchases join condition is
`p.id = fp.product_id AND fp.shipment_id IS NOT NULL`: only shipment-tied
purchases match, so direct sales (`shipment_id` `NULL`) contribute neither to
`total_sold` nor to `current_stock`. -/
def load_stock_row (db : DB) (p : ProductRow) : StockRow :=
  let sp := db.shipment_products.filter (fun r => r.productId == p.id)
  let fp := db.farmer_purchases.filter
    (fun r => r.productId == p.id && r.shipmentId.isSome)
  let rr := db.returns.filter (fun r => r.productId == p.id)
  let rows := joinRows sp fp rr
  { name := p.name
    total_bought := (rows.map (fun x => coalesceQ (·.quantity) x.1)).sum
    total_sold := (rows.map (fun x => coalesceQ (·.quantity) x.2.1)).sum
    current_stock :=
      (rows.map (fun x => coalesceQ (·.quantity) x.1)).sum
      - (rows.map (fun x => coalesceQ (·.quantity) x.2.1)).sum
      - (rows.map (fun x => coalesceQ (·.quantity) x.2.2)).sum }

/-- `ManageWidget.load_stock`: the stock rows ordered by name ascending. -/
def load_stock (db : DB) : List StockRow :=
  (db.products.mergeSort (fun a b => decide (a.name ≤ b.name))).map
    (load_stock_row db)

/-- Result row of `FarmersWidget.load_farmers`. -/
structure FarmerStatsRow where
  id : Nat
  name : String
  createdAt : Nat
  total_bought : ℚ
  deriving Repr, DecidableEq

/-- One group of the `load_farmers` query (`ShipmentManager.py` lines
523-532; `ui_widgets_2.py` lines 50-59): `farmers LEFT JOIN farmer_purchases`
on the farmer id, grouped by farmer, with `COALESCE(SUM(fp.total_paid), 0)`.
A single join has no fan-out, so the sum is exactly over the farmer's
purchases. -/
def load_farmers_row (db : DB) (f : FarmerRow) : FarmerStatsRow :=
  { id := f.id
    name := f.name
    createdAt := f.createdAt
    total_bought :=
      ((db.farmer_purchases.filter (fun r => r.farmerId == f.id)).map
        (·.totalPaid)).sum }

/-- `FarmersWidget.load_farmers`: the farmer rows ordered by name ascending. -/
def load_farmers (db : DB) : List FarmerStatsRow :=
  (db.farmers.mergeSort (fun a b => decide (a.name ≤ b.name))).map
    (load_farmers_row db)

/-! ## Concrete inputs

Small concrete drafts and stores used to evaluate the operations on specific
scenarios (the spec's running example is a Tomato line item of quantity 100
with 60 units allocated to one farmer). -/

/-- Draft line item: Tomato, purchase price 50, quantity 100, with 60 units
already allocated to farmer 1 at resale price 65. -/
def prodTomato60 : DraftProduct :=
  ⟨1, "Tomato", 50, 100, 5000, [⟨1, "Farmer A", 60, 65, 3900⟩]⟩

/-- Draft whose only line item still has 40 unallocated units. -/
def draftIncomplete : Draft :=
  ⟨"pending", [prodTomato60]⟩

/-- Draft with one fully covered line item split over four farmers
(10 + 20 + 30 + 40 = 100). -/
def draftFour : Draft :=
  ⟨"n", [⟨1, "Tomato", 50, 100, 5000,
    [⟨1, "Farmer A", 10, 60, 600⟩, ⟨2, "Farmer B", 20, 60, 1200⟩,
     ⟨3, "Farmer C", 30, 60, 1800⟩, ⟨4, "Farmer D", 40, 60, 2400⟩]⟩]⟩

/-- Store holding one product (Tomato) and one farmer (Farmer A) and no
events. -/
def dbTomatoFarmer : DB :=
  { DB.empty with products := [⟨1, "Tomato", 0⟩], farmers := [⟨1, "Farmer A", 0⟩] }

/-- Store whose only event is a direct sale (`shipment_id` `NULL`) of 5
Tomato units. -/
def dbDirectSaleOnly : DB :=
  { DB.empty with
      products := [⟨1, "Tomato", 0⟩]
      farmers := [⟨1, "Farmer A", 0⟩]
      farmer_purchases := [⟨none, 1, 1, 5, 10, 50⟩] }

/-- Store in which Tomato has 150 units bought, 90 sold through a shipment,
and 10 returned. -/
def dbBought150 : DB :=
  { DB.empty with
      products := [⟨1, "Tomato", 0⟩]
      farmers := [⟨1, "Farmer A", 0⟩]
      shipments := [⟨1, 0, ""⟩]
      shipment_products := [⟨1, 1, 10, 150, 1500⟩]
      farmer_purchases := [⟨some 1, 1, 1, 90, 20, 1800⟩]
      returns := [⟨1, 1, 10, 0, ""⟩] }

/-! # Helper lemmas

Sums over the joined row sets of the aggregation queries: a chain of left
joins multiplies each table's sum by the padded row counts of the other
joined tables. -/

theorem sum_map_const_q {α : Type} (l : List α) (q : ℚ) :
    (l.map (fun _ => q)).sum = l.length * q := by
  induction l with
  | nil => simp
  | cons a t ih => simp [ih]; ring

theorem sum_map_mul_left_q {α : Type} (l : List α) (c : ℚ) (f : α → ℚ) :
    (l.map (fun a => c * f a)).sum = c * (l.map f).sum := by
  induction l with
  | nil => simp
  | cons a t ih => simp [ih]; ring

theorem sum_map_flatMap {α β : Type} (l : List α) (f : α → List β) (g : β → ℚ) :
    ((l.flatMap f).map g).sum = (l.map (fun a => ((f a).map g).sum)).sum := by
  induction l with
  | nil => simp
  | cons a t ih => simp [ih]

theorem joinRows_sum_fst {α β γ : Type} (as : List α) (bs : List β) (cs : List γ)
    (F : Option α → ℚ) :
    ((joinRows as bs cs).map (fun x => F x.1)).sum =
      ((padOpt as).map F).sum * (padOpt bs).length * (padOpt cs).length := by
  unfold joinRows
  rw [sum_map_flatMap]
  have h2 : ∀ (a : Option α) (b : Option β),
      (((padOpt cs).map (fun c => (a, b, c))).map
        (fun x : Option α × Option β × Option γ => F x.1)).sum =
        ((padOpt cs).length : ℚ) * F a := by
    intro a b
    rw [List.map_map]
    exact (sum_map_const_q (padOpt cs) (F a)).trans rfl
  have h1 : ∀ a : Option α,
      (((padOpt bs).flatMap (fun b => (padOpt cs).map (fun c => (a, b, c)))).map
        (fun x : Option α × Option β × Option γ => F x.1)).sum =
        ((padOpt bs).length : ℚ) * (((padOpt cs).length : ℚ) * F a) := by
    intro a
    rw [sum_map_flatMap]
    simp only [h2]
    exact (sum_map_const_q (padOpt bs) _).trans rfl
  simp only [h1]
  have h0 := sum_map_mul_left_q (padOpt as) ((padOpt bs).length : ℚ)
    (fun a => ((padOpt cs).length : ℚ) * F a)
  rw [h0, sum_map_mul_left_q]
  ring

theorem joinRows_sum_snd {α β γ : Type} (as : List α) (bs : List β) (cs : List γ)
    (F : Option β → ℚ) :
    ((joinRows as bs cs).map (fun x => F x.2.1)).sum =
      ((padOpt bs).map F).sum * (padOpt as).length * (padOpt cs).length := by
  unfold joinRows
  rw [sum_map_flatMap]
  have h2 : ∀ (a : Option α) (b : Option β),
      (((padOpt cs).map (fun c => (a, b, c))).map
        (fun x : Option α × Option β × Option γ => F x.2.1)).sum =
        ((padOpt cs).length : ℚ) * F b := by
    intro a b
    rw [List.map_map]
    exact (sum_map_const_q (padOpt cs) (F b)).trans rfl
  have h1 : ∀ a : Option α,
      (((padOpt bs).flatMap (fun b => (padOpt cs).map (fun c => (a, b, c)))).map
        (fun x : Option α × Option β × Option γ => F x.2.1)).sum =
        ((padOpt cs).length : ℚ) * ((padOpt bs).map F).sum := by
    intro a
    rw [sum_map_flatMap]
    simp only [h2]
    rw [sum_map_mul_left_q]
  simp only [h1]
  rw [sum_map_const_q]
  ring

theorem joinRows_sum_thd {α β γ : Type} (as : List α) (bs : List β) (cs : List γ)
    (F : Option γ → ℚ) :
    ((joinRows as bs cs).map (fun x => F x.2.2)).sum =
      ((padOpt cs).map F).sum * (padOpt as).length * (padOpt bs).length := by
  unfold joinRows
  rw [sum_map_flatMap]
  have h2 : ∀ (a : Option α) (b : Option β),
      (((padOpt cs).map (fun c => (a, b, c))).map
        (fun x : Option α × Option β × Option γ => F x.2.2)).sum =
        ((padOpt cs).map F).sum := by
    intro a b
    rw [List.map_map]
    rfl
  have h1 : ∀ a : Option α,
      (((padOpt bs).flatMap (fun b => (padOpt cs).map (fun c => (a, b, c)))).map
        (fun x : Option α × Option β × Option γ => F x.2.2)).sum =
        ((padOpt bs).length : ℚ) * ((padOpt cs).map F).sum := by
    intro a
    rw [sum_map_flatMap]
    simp only [h2]
    rw [sum_map_const_q]
  simp only [h1]
  rw [sum_map_const_q]
  ring

theorem padOpt_map_coalesce_sum {α : Type} (l : List α) (f : α → ℚ) :
    ((padOpt l).map (coalesceQ f)).sum = (l.map f).sum := by
  cases l with
  | nil => simp [padOpt, coalesceQ]
  | cons a t =>
    show ((List.map some (a :: t)).map (coalesceQ f)).sum = ((a :: t).map f).sum
    rw [List.map_map]
    rfl

theorem padOpt_length_of_le_one {α : Type} (l : List α) (h : l.length ≤ 1) :
    (padOpt l).length = 1 := by
  cases l with
  | nil => rfl
  | cons a t =>
    cases t with
    | nil => rfl
    | cons b t2 => simp [List.length_cons] at h

theorem length_filter_and_le {α : Type} (l : List α) (p q : α → Bool) :
    (l.filter (fun a => p a && q a)).length ≤ (l.filter p).length := by
  induction l with
  | nil => simp
  | cons a t ih =>
    simp only [List.filter_cons]
    by_cases h1 : p a
    · by_cases h2 : q a
      · simp [h1, h2]; omega
      · simp [h1, h2]; omega
    · simp [h1]; exact ih

theorem fp_filter_split_sum (l : List FarmerPurchaseRow) (pid : Nat) :
    ((l.filter (fun r => r.productId == pid)).map (fun r => r.quantity)).sum =
      ((l.filter (fun r => r.productId == pid && r.shipmentId.isSome)).map
        (fun r => r.quantity)).sum +
      ((l.filter (fun r => r.productId == pid && r.shipmentId.isNone)).map
        (fun r => r.quantity)).sum := by
  induction l with
  | nil => simp
  | cons a t ih =>
    simp only [List.filter_cons]
    by_cases h1 : a.productId == pid
    · by_cases h2 : a.shipmentId.isSome
      · have h3 : a.shipmentId.isNone = false := by
          cases ha : a.shipmentId <;> simp_all
        simp [h1, h2, h3, ih]; ring
      · have h3 : a.shipmentId.isNone = true := by
          cases ha : a.shipmentId <;> simp_all
        simp [h1, h2, h3, ih]; ring
    · simp [h1, ih]

/-! # Claim theorems -/

/-- C1: every shipment the builder commits has every line item's allocations
summing exactly to that line item's quantity — `save_shipment` checks each
line item before writing anything, and when a line item's assigned sum
differs from its quantity it rejects with an incomplete-allocation warning
naming an offending product (the first one, in draft order) and its
unallocated remainder, leaving the store untouched. -/
theorem save_shipment_allocation_closure (draft : Draft) (db : DB) (now : Nat)
    (failAt : Option Nat) :
    (∀ db', save_shipment draft db now failAt = (.accepted, db') →
      ∀ p ∈ draft.products, totalAssigned p = p.quantity) ∧
    (draft.products ≠ [] →
      ∀ p ∈ draft.products, totalAssigned p ≠ p.quantity →
      ∃ w, w ∈ draft.products ∧ totalAssigned w ≠ w.quantity ∧
        save_shipment draft db now failAt =
          (.rejected (.incompleteAllocation w.name (w.quantity - totalAssigned w)), db)) := by
  constructor
  · intro db' h p hp
    by_cases hE : draft.products.isEmpty
    · simp [save_shipment, hE] at h
    · simp only [save_shipment, hE, Bool.false_eq_true, if_false] at h
      cases hfind : draft.products.find? (fun q => decide (totalAssigned q ≠ q.quantity)) with
      | some w => rw [hfind] at h; simp at h
      | none =>
        have := List.find?_eq_none.mp hfind p hp
        simpa using this
  · intro hne p hp hbad
    have hE : draft.products.isEmpty = false := by
      cases hl : draft.products with
      | nil => exact absurd hl hne
      | cons a t => rfl
    have hsome : (draft.products.find?
        (fun q => decide (totalAssigned q ≠ q.quantity))).isSome := by
      rw [List.find?_isSome]
      exact ⟨p, hp, by simpa using hbad⟩
    obtain ⟨w, hw⟩ := Option.isSome_iff_exists.mp hsome
    refine ⟨w, List.mem_of_find?_eq_some hw, ?_, ?_⟩
    · simpa using List.find?_some hw
    · simp only [save_shipment, hE, Bool.false_eq_true, if_false, hw]

/-- C1 witness: on a draft whose Tomato line item of quantity 100 has only 60
units assigned, saving fails naming the offending line item and the 40
unassigned units, and the empty store stays empty. -/
theorem save_shipment_allocation_closure_witness :
    ∃ w, w ∈ draftIncomplete.products ∧ totalAssigned w ≠ w.quantity ∧
      save_shipment draftIncomplete DB.empty 3 none =
        (.rejected (.incompleteAllocation w.name (w.quantity - totalAssigned w)), DB.empty) :=
  (save_shipment_allocation_closure draftIncomplete DB.empty 3 none).2 (by decide)
    prodTomato60 (by decide) (by norm_num [totalAssigned, prodTomato60])

/-- C2: the shipment commit is NOT one atomic transaction.  Each
`execute_update` call commits on its own connection, so when the third of
four allocation inserts fails, the shipment row, its line item and the first
two allocations remain visible — nothing is rolled back.  The claim says no
row of the shipment may be visible after such a failure. -/
theorem save_shipment_partial_commit_persists :
    save_shipment draftFour DB.empty 9 (some 4) =
      (.rejected .persistenceFailure,
        { DB.empty with
            shipments := [⟨1, 9, "n"⟩]
            shipment_products := [⟨1, 1, 50, 100, 5000⟩]
            farmer_purchases := [⟨some 1, 1, 1, 10, 60, 600⟩,
              ⟨some 1, 2, 1, 20, 60, 1200⟩] }) ∧
    (save_shipment draftFour DB.empty 9 (some 4)).2.shipments ≠ [] := by
  constructor
  · norm_num [save_shipment, draftFour, totalAssigned, nextId, runInsertsFrom,
      insertPlanFor, insertShipmentRow, insertLineItemRow, insertPurchaseRow, DB.empty]
  · norm_num [save_shipment, draftFour, totalAssigned, nextId, runInsertsFrom,
      insertPlanFor, insertShipmentRow, insertLineItemRow, insertPurchaseRow, DB.empty]

/-- C3 counterexample: a store whose only event is a direct sale of 5 Tomato
units.  The claim says every derived `total_sold` counts direct sales
identically to allocations, but `ManageWidget.load_stock` joins
`farmer_purchases` with `fp.shipment_id IS NOT NULL`, so its `total_sold` is
0 while allocations plus direct sales sum to 5. -/
theorem load_stock_omits_direct_sales :
    (load_stock_row dbDirectSaleOnly ⟨1, "Tomato", 0⟩).total_sold = 0 ∧
    ((dbDirectSaleOnly.farmer_purchases.filter
        (fun r => r.productId == 1 && r.shipmentId.isSome)).map
      (fun r => r.quantity)).sum
      + ((dbDirectSaleOnly.farmer_purchases.filter
          (fun r => r.productId == 1 && r.shipmentId.isNone)).map
        (fun r => r.quantity)).sum = 5 ∧
    (0 : ℚ) ≠ 5 := by
  refine ⟨?_, ?_, by norm_num⟩
  · norm_num [load_stock_row, dbDirectSaleOnly, DB.empty, joinRows, padOpt, coalesceQ]
  · norm_num [dbDirectSaleOnly, DB.empty]

/-- C3 (amended): for a product with no join fan-out (at most one matching
row in each of `shipment_products`, `farmer_purchases` and `returns`),
`load_products` satisfies the claim: its `total_sold` contribution counts
shipment-tied allocations and direct sales identically and
`current_stock = total_bought - total_sold - total_returned`; but
`load_stock` excludes direct sales from both `total_sold` and
`current_stock`.  (With several rows per product the chained left joins
multiply each sum by the other tables' row counts.) -/
theorem stock_reconciliation_formula (db : DB) (p : ProductRow)
    (hsp : (db.shipment_products.filter (fun r => r.productId == p.id)).length ≤ 1)
    (hfp : (db.farmer_purchases.filter (fun r => r.productId == p.id)).length ≤ 1)
    (hr : (db.returns.filter (fun r => r.productId == p.id)).length ≤ 1) :
    (load_products_row db p).total_bought =
      ((db.shipment_products.filter (fun r => r.productId == p.id)).map
        (fun r => r.quantity)).sum ∧
    (load_products_row db p).current_stock =
      ((db.shipment_products.filter (fun r => r.productId == p.id)).map
        (fun r => r.quantity)).sum
      - (((db.farmer_purchases.filter
            (fun r => r.productId == p.id && r.shipmentId.isSome)).map
            (fun r => r.quantity)).sum
         + ((db.farmer_purchases.filter
            (fun r => r.productId == p.id && r.shipmentId.isNone)).map
            (fun r => r.quantity)).sum)
      - ((db.returns.filter (fun r => r.productId == p.id)).map
          (fun r => r.quantity)).sum ∧
    (load_stock_row db p).total_sold =
      ((db.farmer_purchases.filter
        (fun r => r.productId == p.id && r.shipmentId.isSome)).map
        (fun r => r.quantity)).sum ∧
    (load_stock_row db p).current_stock =
      ((db.shipment_products.filter (fun r => r.productId == p.id)).map
        (fun r => r.quantity)).sum
      - ((db.farmer_purchases.filter
          (fun r => r.productId == p.id && r.shipmentId.isSome)).map
          (fun r => r.quantity)).sum
      - ((db.returns.filter (fun r => r.productId == p.id)).map
          (fun r => r.quantity)).sum := by
  have hfp2 : (db.farmer_purchases.filter
      (fun r => r.productId == p.id && r.shipmentId.isSome)).length ≤ 1 :=
    le_trans (length_filter_and_le _ _ _) hfp
  have e1 := padOpt_length_of_le_one _ hsp
  have e2 := padOpt_length_of_le_one _ hfp
  have e2' := padOpt_length_of_le_one _ hfp2
  have e3 := padOpt_length_of_le_one _ hr
  refine ⟨?_, ?_, ?_, ?_⟩
  · simp only [load_products_row]
    rw [joinRows_sum_fst, padOpt_map_coalesce_sum, e2, e3]
    push_cast
    ring
  · simp only [load_products_row]
    rw [joinRows_sum_fst, joinRows_sum_snd, joinRows_sum_thd,
      padOpt_map_coalesce_sum, padOpt_map_coalesce_sum, padOpt_map_coalesce_sum,
      e1, e2, e3, fp_filter_split_sum]
    push_cast
    ring
  · simp only [load_stock_row]
    rw [joinRows_sum_snd, padOpt_map_coalesce_sum, e1, e3]
    push_cast
    ring
  · simp only [load_stock_row]
    rw [joinRows_sum_fst, joinRows_sum_snd, joinRows_sum_thd,
      padOpt_map_coalesce_sum, padOpt_map_coalesce_sum, padOpt_map_coalesce_sum,
      e1, e2', e3]
    push_cast
    ring

/-- C3 witness: the spec's concrete instance — a product with 150 bought, 90
sold and 10 returned has `current_stock = 50` in `load_products`. -/
theorem stock_reconciliation_formula_witness :
    (load_products_row dbBought150 ⟨1, "Tomato", 0⟩).total_bought = 150 ∧
    (load_products_row dbBought150 ⟨1, "Tomato", 0⟩).current_stock = 50 := by
  have h := stock_reconciliation_formula dbBought150 ⟨1, "Tomato", 0⟩
    (by decide) (by decide) (by decide)
  constructor
  · rw [h.1]
    norm_num [dbBought150, DB.empty]
  · rw [h.2.1]
    norm_num [dbBought150, DB.empty]

/-- C4: there is no stock-availability check on direct sales or returns —
`direct_sell` and `record_return` insert unconditionally — so a valid
sequence of operations drives `current_stock` negative: a direct sale of 5
Tomato units against a product with no purchases yields `current_stock = -5`,
and a return of 3 units yields `-3`. -/
theorem direct_sale_and_return_drive_stock_negative :
    (direct_sell dbTomatoFarmer (some 1) (some 1) 5 10).1 = .accepted ∧
    load_products ((direct_sell dbTomatoFarmer (some 1) (some 1) 5 10).2) =
      [⟨1, "Tomato", 0, 0, 0, -5⟩] ∧
    (record_return dbTomatoFarmer 1 1 3 0 "damaged").1 = .accepted ∧
    load_products ((record_return dbTomatoFarmer 1 1 3 0 "damaged").2) =
      [⟨1, "Tomato", 0, 0, 0, -3⟩] ∧
    (-5 : ℚ) < 0 ∧ (-3 : ℚ) < 0 := by
  refine ⟨rfl, ?_, rfl, ?_, by norm_num, by norm_num⟩
  · norm_num [load_products, load_products_row, direct_sell, dbTomatoFarmer, DB.empty,
      joinRows, padOpt, coalesceQ, List.mergeSort]
  · norm_num [load_products, load_products_row, record_return, dbTomatoFarmer, DB.empty,
      joinRows, padOpt, coalesceQ, List.mergeSort]

/-- C5: for an allocation request by a farmer not already assigned to the
selected line item (the duplicate check runs first in the source), a request
exceeding the line item's remaining quantity is rejected with an
over-allocation warning reporting exactly the remaining allocatable quantity
and the draft is unchanged, while a request of at most the remaining
quantity — in particular exactly the remaining quantity — is appended. -/
theorem assign_over_allocation_policy (products : List DraftProduct) (idx : Nat)
    (product : DraftProduct) (farmerId : Nat) (farmerName : String)
    (quantity sellingPrice : ℚ)
    (hidx : products[idx]? = some product)
    (hfresh : ∀ f ∈ product.farmers, f.farmerId ≠ farmerId) :
    (totalAssigned product + quantity > product.quantity →
      assign_to_farmer products (some idx) farmerId farmerName quantity sellingPrice =
        (.rejected (.overAllocation (product.quantity - totalAssigned product)), products)) ∧
    (totalAssigned product + quantity ≤ product.quantity →
      assign_to_farmer products (some idx) farmerId farmerName quantity sellingPrice =
        (.accepted, products.set idx
          { product with farmers := product.farmers ++
              [⟨farmerId, farmerName, quantity, sellingPrice,
                quantity * sellingPrice⟩] })) := by
  have hany : product.farmers.any (fun f => f.farmerId == farmerId) = false := by
    rw [List.any_eq_false]
    intro f hf
    simpa using hfresh f hf
  constructor
  · intro hgt
    simp only [assign_to_farmer, hidx, hany, Bool.false_eq_true, if_false]
    rw [if_pos hgt]
  · intro hle
    simp only [assign_to_farmer, hidx, hany, Bool.false_eq_true, if_false]
    rw [if_neg (not_lt.mpr hle)]

/-- C5 witness: the spec's instance — a Tomato line item of 100 with 60
already allocated: a request of 50 fails reporting 40 units remaining
and leaves the draft unchanged; a request of exactly 40 succeeds. -/
theorem assign_over_allocation_policy_witness :
    (assign_to_farmer [prodTomato60] (some 0) 2 "Farmer B" 50 70 =
      (.rejected (.overAllocation 40), [prodTomato60])) ∧
    (assign_to_farmer [prodTomato60] (some 0) 2 "Farmer B" 40 70 =
      (.accepted, [{ prodTomato60 with farmers := prodTomato60.farmers ++
        [⟨2, "Farmer B", 40, 70, 40 * 70⟩] }])) := by
  constructor
  · have h := (assign_over_allocation_policy [prodTomato60] 0 prodTomato60 2 "Farmer B"
      50 70 rfl (by decide)).1 (by norm_num [totalAssigned, prodTomato60])
    rw [h]
    norm_num [totalAssigned, prodTomato60]
  · have h := (assign_over_allocation_policy [prodTomato60] 0 prodTomato60 2 "Farmer B"
      40 70 rfl (by decide)).2 (by norm_num [totalAssigned, prodTomato60])
    rw [h]
    rfl

/-- C6: a second allocation request for a (line item, farmer) pair that
already has one is rejected with the duplicate-farmer warning, whatever the
requested quantity and price, and the draft is returned unchanged — never
merged into the existing allocation. -/
theorem assign_duplicate_farmer_rejected (products : List DraftProduct) (idx : Nat)
    (product : DraftProduct) (farmerId : Nat) (farmerName : String)
    (quantity sellingPrice : ℚ)
    (hidx : products[idx]? = some product)
    (hdup : ∃ f ∈ product.farmers, f.farmerId = farmerId) :
    assign_to_farmer products (some idx) farmerId farmerName quantity sellingPrice =
      (.rejected .duplicateFarmer, products) := by
  have hany : product.farmers.any (fun f => f.farmerId == farmerId) = true := by
    rw [List.any_eq_true]
    obtain ⟨f, hf, he⟩ := hdup
    exact ⟨f, hf, by simpa using he⟩
  simp only [assign_to_farmer, hidx, hany, if_true]

/-- C6 witness: farmer 1 already holds 60 units of the Tomato line item; a
second request for farmer 1 (here of 40 units) is rejected as a duplicate
and the draft is unchanged. -/
theorem assign_duplicate_farmer_rejected_witness :
    assign_to_farmer [prodTomato60] (some 0) 1 "Farmer A" 40 70 =
      (.rejected .duplicateFarmer, [prodTomato60]) :=
  assign_duplicate_farmer_rejected [prodTomato60] 0 prodTomato60 1 "Farmer A" 40 70 rfl
    ⟨⟨1, "Farmer A", 60, 65, 3900⟩, by decide, rfl⟩

/-- C7 counterexample: with product "Tomato" and farmer "Farmer A" stored,
`ShipmentManager.py`'s `add_product` accepts "tomato" and `add_farmer`
accepts "farmer a" — the UNIQUE constraints compare case-sensitively and
neither path makes a case-insensitive check, so a second row is inserted
instead of the duplicate rejection the claim requires. -/
theorem case_insensitive_duplicate_accepted :
    add_product_sm dbTomatoFarmer "tomato" 5 =
      (.accepted, { dbTomatoFarmer with
        products := dbTomatoFarmer.products ++ [⟨2, "tomato", 5⟩] }) ∧
    add_farmer dbTomatoFarmer "farmer a" 5 =
      (.accepted, { dbTomatoFarmer with
        farmers := dbTomatoFarmer.farmers ++ [⟨2, "farmer a", 5⟩] }) := by
  constructor
  · decide
  · decide

/-- C7 (amended): only the hardened `ProductsWidget.add_product` of
`ui_widgets_1.py` rejects case-insensitive duplicates (via
`_product_exists`), inserting nothing.  The `ShipmentManager.py`
`add_product` and both `add_farmer` paths rely on the case-SENSITIVE UNIQUE
constraint alone: an exactly equal name makes the INSERT fail (caught, with
nothing inserted), but a name differing only in letter case is inserted as a
new row. -/
theorem duplicate_name_policy :
    (∀ (db : DB) (role name : String) (confirmed : Bool) (now : Nat),
      (role = "admin" ∨ role = "manager") →
      stripStr name ≠ "" → (stripStr name).length ≤ 200 →
      (∃ p ∈ db.products, lowerStr p.name = lowerStr (stripStr name)) →
      add_product_hardened db role name confirmed now = (.rejected .duplicateName, db)) ∧
    (∀ (db : DB) (name : String) (now : Nat), name ≠ "" →
      (∃ p ∈ db.products, p.name = name) →
      add_product_sm db name now = (.rejected .integrityViolation, db)) ∧
    (∀ (db : DB) (name : String) (now : Nat), name ≠ "" →
      (∃ f ∈ db.farmers, f.name = name) →
      add_farmer db name now = (.rejected .integrityViolation, db)) ∧
    (∀ (db : DB) (name : String) (now : Nat), name ≠ "" →
      (∀ f ∈ db.farmers, f.name ≠ name) →
      add_farmer db name now =
        (.accepted, { db with farmers := db.farmers ++
          [⟨nextId (db.farmers.map (·.id)), name, now⟩] })) := by
  refine ⟨?_, ?_, ?_, ?_⟩
  · intro db role name confirmed now hrole hne hlen hdup
    have hroleb : (role == "admin" || role == "manager") = true := by
      rcases hrole with h | h <;> simp [h]
    have hneb : (stripStr name == "") = false := by simpa using hne
    have hex : product_exists db name = true := by
      rw [product_exists, List.any_eq_true]
      obtain ⟨p, hp, he⟩ := hdup
      exact ⟨p, hp, by simpa using he⟩
    simp only [add_product_hardened, hroleb, hneb, hex, Bool.false_eq_true, if_false,
      not_true, if_true]
    rw [if_neg (by omega)]
  · intro db name now hne hdup
    have hneb : (name == "") = false := by simpa using hne
    have hany : db.products.any (fun p => p.name == name) = true := by
      rw [List.any_eq_true]
      obtain ⟨p, hp, he⟩ := hdup
      exact ⟨p, hp, by simpa using he⟩
    simp only [add_product_sm, hneb, Bool.false_eq_true, if_false, insertProductRow,
      hany, if_true]
  · intro db name now hne hdup
    have hneb : (name == "") = false := by simpa using hne
    have hany : db.farmers.any (fun f => f.name == name) = true := by
      rw [List.any_eq_true]
      obtain ⟨f, hf, he⟩ := hdup
      exact ⟨f, hf, by simpa using he⟩
    simp only [add_farmer, hneb, Bool.false_eq_true, if_false, insertFarmerRow,
      hany, if_true]
  · intro db name now hne hfresh
    have hneb : (name == "") = false := by simpa using hne
    have hany : db.farmers.any (fun f => f.name == name) = false := by
      rw [List.any_eq_false]
      intro f hf
      simpa using hfresh f hf
    simp only [add_farmer, hneb, Bool.false_eq_true, if_false, insertFarmerRow,
      hany, if_false]

/-- C7 witness: with "Tomato" stored, the hardened path rejects "tomato" as
a duplicate and inserts nothing; and "farmer a", absent as an exact name, is
inserted by `add_farmer` even though "Farmer A" exists. -/
theorem duplicate_name_policy_witness :
    add_product_hardened dbTomatoFarmer "admin" "tomato" true 5 =
      (.rejected .duplicateName, dbTomatoFarmer) ∧
    add_farmer dbTomatoFarmer "farmer a" 5 =
      (.accepted, { dbTomatoFarmer with
        farmers := dbTomatoFarmer.farmers ++
          [⟨nextId (dbTomatoFarmer.farmers.map (·.id)), "farmer a", 5⟩] }) :=
  ⟨duplicate_name_policy.1 dbTomatoFarmer "admin" "tomato" true 5 (Or.inl rfl)
      (by decide) (by decide) ⟨⟨1, "Tomato", 0⟩, by decide, by decide⟩,
   duplicate_name_policy.2.2.2 dbTomatoFarmer "farmer a" 5 (by decide) (by decide)⟩

/-- C9: the listing queries are deterministically ordered — shipment
summaries come out sorted by `created_at` descending, product and farmer
listings sorted by name ascending, and each listing is a permutation of the
corresponding per-row aggregation of the stored reference rows. -/
theorem listing_queries_ordered (db : DB) :
    List.Pairwise (fun a b : ShipmentSummaryRow => b.createdAt ≤ a.createdAt)
      (load_shipments db) ∧
    List.Perm (load_shipments db) (db.shipments.map (load_shipments_row db)) ∧
    List.Pairwise (fun a b : ProductStatsRow => a.name ≤ b.name) (load_products db) ∧
    List.Perm (load_products db) (db.products.map (load_products_row db)) ∧
    List.Pairwise (fun a b : FarmerStatsRow => a.name ≤ b.name) (load_farmers db) ∧
    List.Perm (load_farmers db) (db.farmers.map (load_farmers_row db)) := by
  refine ⟨?_, ?_, ?_, ?_, ?_, ?_⟩
  · unfold load_shipments
    rw [List.pairwise_map]
    refine List.Pairwise.imp ?_ (List.sorted_mergeSort ?_ ?_ db.shipments)
    · intro a b h
      exact of_decide_eq_true h
    · intro a b c hab hbc
      rw [decide_eq_true_eq] at hab hbc ⊢
      omega
    · intro a b
      rw [Bool.or_eq_true, decide_eq_true_eq, decide_eq_true_eq]
      omega
  · unfold load_shipments
    exact (List.mergeSort_perm db.shipments _).map (load_shipments_row db)
  · unfold load_products
    rw [List.pairwise_map]
    refine List.Pairwise.imp ?_ (List.sorted_mergeSort ?_ ?_ db.products)
    · intro a b h
      exact of_decide_eq_true h
    · intro a b c hab hbc
      rw [decide_eq_true_eq] at hab hbc ⊢
      exact le_trans hab hbc
    · intro a b
      rw [Bool.or_eq_true, decide_eq_true_eq, decide_eq_true_eq]
      exact le_total a.name b.name
  · unfold load_products
    exact (List.mergeSort_perm db.products _).map (load_products_row db)
  · unfold load_farmers
    rw [List.pairwise_map]
    refine List.Pairwise.imp ?_ (List.sorted_mergeSort ?_ ?_ db.farmers)
    · intro a b h
      exact of_decide_eq_true h
    · intro a b c hab hbc
      rw [decide_eq_true_eq] at hab hbc ⊢
      exact le_trans hab hbc
    · intro a b
      rw [Bool.or_eq_true, decide_eq_true_eq, decide_eq_true_eq]
      exact le_total a.name b.name
  · unfold load_farmers
    exact (List.mergeSort_perm db.farmers _).map (load_farmers_row db)

/-- C10: a transfer from a farmer to the same farmer is rejected and the
store is unchanged; a transfer between distinct farmers appends exactly one
`transfers` row recording the source farmer, destination farmer, product,
quantity and note, touching no other table. -/
theorem transfer_requires_distinct_farmers (db : DB) (ff tf pid : Nat) (q : ℚ)
    (note : String) :
    (ff = tf → transfer_products db ff tf pid q note =
      (.rejected .sameFarmerTransfer, db)) ∧
    (ff ≠ tf → transfer_products db ff tf pid q note =
      (.accepted, { db with transfers := db.transfers ++ [⟨ff, tf, pid, q, note⟩] })) := by
  constructor
  · intro h
    simp [transfer_products, h]
  · intro h
    have hb : (ff == tf) = false := by simpa using h
    simp [transfer_products, hb]

/-- C10 witness: transferring 5 units from farmer 1 to farmer 1 is rejected
leaving the store unchanged; from farmer 1 to farmer 2 it inserts the single
recorded transfer row. -/
theorem transfer_requires_distinct_farmers_witness :
    transfer_products dbTomatoFarmer 1 1 1 5 "note" =
      (.rejected .sameFarmerTransfer, dbTomatoFarmer) ∧
    transfer_products dbTomatoFarmer 1 2 1 5 "note" =
      (.accepted, { dbTomatoFarmer with
        transfers := dbTomatoFarmer.transfers ++ [⟨1, 2, 1, 5, "note"⟩] }) :=
  ⟨(transfer_requires_distinct_farmers dbTomatoFarmer 1 1 1 5 "note").1 rfl,
   (transfer_requires_distinct_farmers dbTomatoFarmer 1 2 1 5 "note").2 (by decide)⟩

end ShipmentMgr
